import Mathlib

/-!
Verification of the ElasticSearch/DynamoDB indexing pipeline.

The development shallowly embeds the JavaScript sources of the repository:
* `src/release/index/handler.js` — the Lambda entry point (event router and
  batch completion tracking),
* `src/release/index/content/{articles,audio,events,series}.js` and the
  videos transformer (`src/unnamed/part_008`) — the per-content-type
  transformers,
* the shared ElasticSearch gateway class (`src/unnamed/part_004`,
  `shared/index.js`) — `insert` / `_insert` / `remove` / `_createIndex`.

JavaScript values are modelled by the inductive `JsVal`; property access on
`undefined`/`null` and calling `forEach` on a non-array raise `TypeError`
values, mirroring the runtime.  Promises are modelled by `PromiseOutcome`
(fulfilled / rejected / pending, the last for executors that run neither
`fulfill` nor `reject`).  The external ElasticSearch client is a parameter
(`EsEnv`): each gateway operation consults it for the response of the
corresponding network call, and the trace of issued calls is recorded as a
`List EsCall`.
-/

/-- A JavaScript value, as far as the indexing pipeline needs:
primitives, arrays, plain objects (ordered field lists) and `Error`
instances (constructor name and message).  `undefJs` is `undefined`. -/
inductive JsVal where
  | undefJs : JsVal
  | null : JsVal
  | bool (b : Bool) : JsVal
  | num (n : Int) : JsVal
  | str (s : String) : JsVal
  | arr (xs : List JsVal) : JsVal
  | obj (fields : List (String × JsVal)) : JsVal
  | error (name msg : String) : JsVal
deriving Repr

/-- A `TypeError` raised when reading property `p` of `undefined`/`null`. -/
def typeErrorProp (p : String) : JsVal :=
  JsVal.error "TypeError" ("Cannot read property " ++ p ++ " of undefined or null")

/-- A `TypeError` raised when `forEach` (or another method) is not a function. -/
def typeErrorCall (what : String) : JsVal :=
  JsVal.error "TypeError" (what ++ " is not a function")

/-- A `ReferenceError` raised when an identifier is not in scope. -/
def referenceError (n : String) : JsVal :=
  JsVal.error "ReferenceError" (n ++ " is not defined")

/-- JavaScript truthiness. -/
def truthy : JsVal → Bool
  | .undefJs => false
  | .null => false
  | .bool b => b
  | .num n => n != 0
  | .str s => s ≠ ""
  | .arr _ => true
  | .obj _ => true
  | .error _ _ => true

/-- First-match lookup in an object's field list. -/
def lookupField : List (String × JsVal) → String → JsVal
  | [], _ => .undefJs
  | (k, v) :: fs, n => if k = n then v else lookupField fs n

/-- Property read, `v.p`: raises `TypeError` on `undefined`/`null`,
looks up the field on objects, yields `undefined` on other primitives
(no property model is needed for them in this code base). -/
def getProp (v : JsVal) (p : String) : Except JsVal JsVal :=
  match v with
  | .undefJs => .error (typeErrorProp p)
  | .null => .error (typeErrorProp p)
  | .obj fs => .ok (lookupField fs p)
  | _ => .ok .undefJs

/-- Total property read on an already-built value (used to state theorems
about produced documents; never used to embed source code that can throw). -/
def getField (v : JsVal) (p : String) : JsVal :=
  match v with
  | .obj fs => lookupField fs p
  | _ => .undefJs

/-- Embeds `Object.keys(v)`: `TypeError` on `undefined`/`null`, field names on
objects, index strings on arrays, empty otherwise. -/
def objectKeys (v : JsVal) : Except JsVal (List String) :=
  match v with
  | .undefJs => .error (typeErrorProp "keys argument")
  | .null => .error (typeErrorProp "keys argument")
  | .obj fs => .ok (fs.map (·.1))
  | .arr xs => .ok ((List.range xs.length).map toString)
  | _ => .ok []

/-- Embeds `delete v.p` on an object (leaves non-objects unchanged). -/
def deleteField (v : JsVal) (p : String) : JsVal :=
  match v with
  | .obj fs => .obj (fs.filter (fun f => f.1 ≠ p))
  | w => w

/-- Embeds `v[i]` for a numeric index: `TypeError` on `undefined`/`null`,
the element (or `undefined` past the end) on arrays, `undefined` otherwise. -/
def jsIndex (v : JsVal) (i : Nat) : Except JsVal JsVal :=
  match v with
  | .undefJs => .error (typeErrorProp (toString i))
  | .null => .error (typeErrorProp (toString i))
  | .arr xs => .ok (xs.getD i .undefJs)
  | _ => .ok .undefJs

/-- Embeds `v.length > 0` as the transformers use it in their guards. -/
def lengthGtZero : JsVal → Bool
  | .arr xs => decide (xs.length > 0)
  | .str s => decide (s.length > 0)
  | _ => false

/-- Embeds `v instanceof Error`, as the batch tracker tests settled values. -/
def isErrorVal : JsVal → Bool
  | .error _ _ => true
  | _ => false

/-- Effectful map over a list in the `Except` monad (the embedding of a
`forEach` loop that can throw at each element). -/
def mapExcept (f : α → Except ε β) : List α → Except ε (List β)
  | [] => .ok []
  | x :: xs => do
      let y ← f x
      let ys ← mapExcept f xs
      pure (y :: ys)

/-- JS strict equality `v === 's'` against a string literal. -/
def isStr (v : JsVal) (s : String) : Bool :=
  match v with
  | .str t => t = s
  | _ => false

/-- Outcome of one promise: settled (fulfilled/rejected) or forever pending
(the executor returned without calling `fulfill` or `reject`, and nothing
can call them later). -/
inductive PromiseOutcome where
  | fulfilled (v : JsVal) : PromiseOutcome
  | rejected (v : JsVal) : PromiseOutcome
  | pending : PromiseOutcome
deriving Repr

/-- One network call issued to the ElasticSearch client
(`shared/index.js`, src/unnamed/part_004). -/
inductive EsCall where
  /-- Embeds `es.indices.exists({index})` -/
  | indicesExists (index : JsVal) : EsCall
  /-- Embeds `es.indices.create({index, body: template})` -/
  | indicesCreate (index : JsVal) : EsCall
  /-- Embeds `es.index({index, type, id, body, refresh: true})` -/
  | insertDoc (index : JsVal) (type : String) (id : JsVal) (body : JsVal) : EsCall
  /-- Embeds `es.delete({index, type, id, refresh: true})` -/
  | deleteDoc (index : JsVal) (type : String) (id : JsVal) : EsCall
deriving Repr

/-- The external ElasticSearch client: how each network call settles.
The repository does not contain the client; it is the search-engine
collaborator, so its responses are a parameter of every run. -/
structure EsEnv where
  indicesExists : JsVal → Except JsVal Bool
  indicesCreate : JsVal → Except JsVal JsVal
  indexDoc : JsVal → String → JsVal → JsVal → Except JsVal JsVal
  deleteDoc : JsVal → String → JsVal → Except JsVal JsVal

/-- The trace of one gateway/transformer invocation: the ES calls it issued,
in order, and how its returned promise ends. -/
structure TRun where
  calls : List EsCall
  outcome : PromiseOutcome
deriving Repr

namespace Index

/-- Embeds `Index._insert(index, id, doc)` (src/unnamed/part_004, lines 107–115):
`this.es.index({index, type: 'content', id, body: doc, refresh: true})`. -/
def _insert (env : EsEnv) (index id doc : JsVal) : TRun :=
  { calls := [.insertDoc index "content" id doc]
    outcome :=
      match env.indexDoc index "content" id doc with
      | .ok v => .fulfilled v
      | .error e => .rejected e }

/-- Embeds `Index.remove(index, id)` (src/unnamed/part_004, lines 125–132):
`this.es.delete({index, type: 'content', id, refresh: true})`.  The
client's promise is returned unchanged — no handler is attached. -/
def remove (env : EsEnv) (index id : JsVal) : TRun :=
  { calls := [.deleteDoc index "content" id]
    outcome :=
      match env.deleteDoc index "content" id with
      | .ok v => .fulfilled v
      | .error e => .rejected e }

/-- Embeds `Index.insert(index, id, doc)` (src/unnamed/part_004, lines 57–94):
check `indices.exists`; create the index if absent; then `_insert`;
fulfills `true` on success, rejects with the first failing call's error. -/
def insert (env : EsEnv) (index id doc : JsVal) : TRun :=
  match env.indicesExists index with
  | .error e => { calls := [.indicesExists index], outcome := .rejected e }
  | .ok ex =>
      if ex then
        let w := _insert env index id doc
        { calls := .indicesExists index :: w.calls
          outcome :=
            match w.outcome with
            | .fulfilled _ => .fulfilled (.bool true)
            | o => o }
      else
        match env.indicesCreate index with
        | .error e =>
            { calls := [.indicesExists index, .indicesCreate index]
              outcome := .rejected e }
        | .ok _ =>
            let w := _insert env index id doc
            { calls := .indicesExists index :: .indicesCreate index :: w.calls
              outcome :=
                match w.outcome with
                | .fulfilled _ => .fulfilled (.bool true)
                | o => o }

end Index

/-- Whether `p` is a prefix of `cs` (computable by structural recursion, so
that the embedding reduces definitionally). -/
def isPrefixChars : List Char → List Char → Bool
  | [], _ => true
  | _ :: _, [] => false
  | p :: ps, c :: cs => p = c && isPrefixChars ps cs

/-- Everything after the first occurrence of `pat` in `cs` (`none` when
`pat` does not occur). -/
def afterFirst (pat : List Char) : List Char → Option (List Char)
  | [] => none
  | c :: cs =>
      if isPrefixChars pat (c :: cs) then some ((c :: cs).drop pat.length)
      else afterFirst pat cs

/-- Everything before the first occurrence of `pat` in `cs` (all of `cs`
when `pat` does not occur). -/
def beforeFirst (pat : List Char) : List Char → List Char
  | [] => []
  | c :: cs =>
      if isPrefixChars pat (c :: cs) then [] else c :: beforeFirst pat cs

/-- Split a character list at every occurrence of `sep`
(the embedding of JS `s.split(sep)` for a one-character separator). -/
def splitChars (sep : Char) : List Char → List (List Char)
  | [] => [[]]
  | c :: cs =>
      match splitChars sep cs with
      | [] => [[c]]
      | g :: gs => if c = sep then [] :: g :: gs else (c :: g) :: gs

/-- JS `s.split(' ')`. -/
def jsSplitSpace (s : String) : List String :=
  (splitChars (Char.ofNat 32) s.data).map List.asString

/-- Join words with single spaces (how the suggestion loop rebuilds a
phrase with `phrase = phrase + ' ' + words[y]`). -/
def joinSpace : List String → String
  | [] => ""
  | [w] => w
  | w :: ws => w ++ " " ++ joinSpace ws


namespace Videos
/-! The videos transformer, `content/videos.js` (src/unnamed/part_008). -/

/-- The inner loop of `_defineTitleSuggestions` (lines 152–163): for each
start position, if the word there is not a skip word, emit the phrase from
that word to the end of the title. -/
def suggestPhrases (skip : List String) : List String → List String
  | [] => []
  | w :: ws =>
      (if skip.contains w then [] else [joinSpace (w :: ws)]) ++
        suggestPhrases skip ws

/-- Embeds `Videos._defineTitleSuggestions(title)` (lines 147–166): phrases starting
at every non-skip word from the second word on, then the full title.  `skip`
is `process.env.ES_SUGGEST_SKIP.split(',')`, passed as a parameter. -/
def _defineTitleSuggestions (skip : List String) (title : String) : List String :=
  suggestPhrases skip ((jsSplitSpace title).drop 1) ++ [title]

/-- Embeds `Videos._defineCategories(categories)` (lines 193–199): unguarded
`categories.forEach(category => push({name: category.title}))`. -/
def _defineCategories (categories : JsVal) : Except JsVal JsVal :=
  match categories with
  | .arr xs => do
      let ys ← mapExcept (fun c => do
        let t ← getProp c "title"
        pure (JsVal.obj [("name", t)])) xs
      pure (.arr ys)
  | _ => .error (typeErrorCall "categories.forEach")

/-- Embeds `Videos._defineTags(tags)` (lines 208–214). -/
def _defineTags (tags : JsVal) : Except JsVal JsVal :=
  match tags with
  | .arr xs => do
      let ys ← mapExcept (fun t => do
        let n ← getProp t "title"
        pure (JsVal.obj [("name", n)])) xs
      pure (.arr ys)
  | _ => .error (typeErrorCall "tags.forEach")

/-- Embeds `Videos._definePeople(creditBlocks)` (lines 176–184): for each block,
`block.credits.forEach(...)` with NO guard on `block.credits`. -/
def _definePeople (creditBlocks : JsVal) : Except JsVal JsVal :=
  match creditBlocks with
  | .arr blocks => do
      let groups ← mapExcept (fun b => do
        let credits ← getProp b "credits"
        match credits with
        | .arr cs =>
            mapExcept (fun c => do
              let t ← getProp c "title"
              pure (JsVal.obj [("name", t)])) cs
        | _ => Except.error (typeErrorCall "block.credits.forEach")) blocks
      pure (.arr groups.flatten)
  | _ => .error (typeErrorCall "creditBlocks.forEach")

/-- The document literal of `Videos._prepareDocument` (lines 98–113),
evaluated on the API record `video`, fields in source order. -/
def buildDoc (skip : List String) (video : JsVal) : Except JsVal JsVal := do
  let gist ← getProp video "gist"
  let title ← getProp gist "title"
  let suggestTitle ←
    match title with
    | .str s => pure (JsVal.arr ((_defineTitleSuggestions skip s).map .str))
    | _ => Except.error (typeErrorCall "title.split")
  let description ← getProp gist "description"
  let pc ← getProp gist "primaryCategory"
  let primaryCategory ← if truthy pc then getProp pc "title" else pure JsVal.null
  let cats ← getProp video "categories"
  let categoriesV ← _defineCategories cats
  let tags0 ← getProp video "tags"
  let tagsV ← _defineTags tags0
  let contentDetails ← getProp video "contentDetails"
  let status ← getProp contentDetails "status"
  let cb ← getProp video "creditBlocks"
  let people ← if truthy cb then _definePeople cb else pure JsVal.null
  let isTrailer0 ← getProp gist "isTrailer"
  let isTrailer := if truthy isTrailer0 then isTrailer0 else JsVal.bool false
  let free ← getProp gist "free"
  let year ← getProp gist "year"
  let parentalRating ← getProp video "parentalRating"
  pure (JsVal.obj
    [("title", title), ("suggestTitle", suggestTitle), ("type", .str "video"),
     ("description", description), ("primaryCategory", primaryCategory),
     ("categories", categoriesV), ("tags", tagsV), ("status", status),
     ("people", people), ("isTrailer", isTrailer), ("free", free),
     ("year", year), ("parentalRating", parentalRating), ("data", video)])

/-- The identifiers in scope in the body of `Videos.index` (part_008,
lines 54–80): its parameters `(action, index, id)`, the local `self`, the
executor parameters, the module-level constants and CommonJS ambients.
`site`, which the body reads, is NOT among them. -/
def indexScopeNames : List String :=
  ["action", "index", "id", "self", "fulfill", "reject",
   "API", "Index", "Videos", "require", "module", "exports", "process", "console"]

/-- Embeds `Videos.index(action, index, id)` (lines 54–80).  The body reads the
unbound identifier `site` in both live branches, so:
* `action === 'INSERT'` — evaluating `self._prepareDocument(site, id)`
  throws `ReferenceError: site is not defined` inside the executor, which
  rejects the promise before any ES call;
* `action === 'remove'` — evaluating `self.remove(site, 'videos', id, doc)`
  throws the same `ReferenceError` (arguments evaluate left to right);
* any other action (including the router's `'REMOVE'`) matches neither
  branch: the executor returns without calling `fulfill` or `reject`, so
  the promise never settles. -/
def index (env : EsEnv) (action : String) (index id : JsVal) : TRun :=
  if action = "INSERT" then
    { calls := [], outcome := .rejected (referenceError "site") }
  else if action = "remove" then
    { calls := [], outcome := .rejected (referenceError "site") }
  else
    { calls := [], outcome := .pending }

end Videos

namespace Series
/-! The series transformer, `src/release/index/content/series.js`.
Series is indexed from the DynamoDB change-event image (translated to plain
JSON by the AWS SDK's `dynamodbTranslator`, an external collaborator); the
document builder below takes the already-translated `item`. -/

/-- The per-block body of `Series._definePeople`'s `forEach` (lines
110–116): `if (block.credits) block.credits.forEach(credit =>
people.push({name: credit.title}))` — the entries one block contributes. -/
def personsOfBlock (b : JsVal) : Except JsVal (List JsVal) := do
  let credits ← getProp b "credits"
  if truthy credits then
    match credits with
    | .arr cs =>
        mapExcept (fun c => do
          let t ← getProp c "title"
          pure (JsVal.obj [("name", t)])) cs
    | _ => Except.error (typeErrorCall "block.credits.forEach")
  else pure []

/-- Embeds `Series._definePeople(creditBlocks)` (lines 108–118): each block is
guarded by `if (block.credits)` before iterating, so a block without a
`credits` key contributes nothing. -/
def _definePeople (creditBlocks : JsVal) : Except JsVal JsVal :=
  match creditBlocks with
  | .arr blocks => do
      let groups ← mapExcept personsOfBlock blocks
      pure (.arr groups.flatten)
  | _ => .error (typeErrorCall "creditBlocks.forEach")

/-- Embeds `Series._defineCategories(categories)` (lines 127–133): unguarded. -/
def _defineCategories (categories : JsVal) : Except JsVal JsVal :=
  match categories with
  | .arr xs => do
      let ys ← mapExcept (fun c => do
        let t ← getProp c "title"
        pure (JsVal.obj [("name", t)])) xs
      pure (.arr ys)
  | _ => .error (typeErrorCall "categories.forEach")

/-- Embeds `Series._defineTags(tags)` (lines 142–148). -/
def _defineTags (tags : JsVal) : Except JsVal JsVal :=
  match tags with
  | .arr xs => do
      let ys ← mapExcept (fun t => do
        let n ← getProp t "title"
        pure (JsVal.obj [("name", n)])) xs
      pure (.arr ys)
  | _ => .error (typeErrorCall "tags.forEach")

/-- The document literal of `Series._prepareDocument` (lines 86–96) on the
translated item: note `item.gist.primaryCategory.title` is read with no
guard at all (line 90). -/
def buildDoc (item : JsVal) : Except JsVal JsVal := do
  let gist ← getProp item "gist"
  let title ← getProp gist "title"
  let description ← getProp gist "description"
  let pc ← getProp gist "primaryCategory"
  let primaryCategory ← getProp pc "title"
  let cats ← getProp item "categories"
  let categoriesV ← _defineCategories cats
  let cb ← getProp item "creditBlocks"
  let people ← _definePeople cb
  let tags0 ← getProp item "tags"
  let tagsV ← _defineTags tags0
  let showDetails ← getProp item "showDetails"
  let status ← getProp showDetails "status"
  pure (JsVal.obj
    [("type", .str "series"), ("seriesTitle", title),
     ("seriesDescription", description), ("seriesPrimaryCategory", primaryCategory),
     ("seriesCategories", categoriesV), ("seriesPeople", people),
     ("seriesTags", tagsV), ("status", status), ("data", item)])

/-- The identifiers in scope in the body of `Series.index` (series.js,
lines 49–71): its parameters, the local `self`, the executor parameters, the
module-level constants and CommonJS ambients.  `_prepareDocument`, which
line 54 calls as a bare identifier (`const doc = _prepareDocument(image)`),
is NOT among them — the method only exists as `this._prepareDocument`. -/
def indexScopeNames : List String :=
  ["action", "site", "id", "image", "self", "fulfill", "reject",
   "AWS", "docClient", "dynamodbTranslator", "ItemShape", "Index", "Series",
   "require", "module", "exports", "process", "console"]

/-- Embeds `Series.index(action, site, id, image)` (lines 49–71).
* `action === 'INSERT'`: line 54 evaluates the bare identifier
  `_prepareDocument`, which is unbound, so the executor throws
  `ReferenceError: _prepareDocument is not defined` and the promise rejects
  before `self.insert` can run — no ES call is issued.
* `action === 'REMOVE'`: line 63 calls `self.remove(site, 'series', id)`;
  the gateway's signature is `remove(index, id)`, so it binds
  `index := site`, `id := 'series'` and drops the content id.
* any other action: the executor returns silently, promise pending. -/
def index (env : EsEnv) (action : String) (site id image : JsVal) : TRun :=
  if action = "INSERT" then
    { calls := [], outcome := .rejected (referenceError "_prepareDocument") }
  else if action = "REMOVE" then
    let g := Index.remove env site (.str "series")
    { calls := g.calls
      outcome :=
        match g.outcome with
        | .fulfilled _ => .fulfilled (.bool true)
        | o => o }
  else
    { calls := [], outcome := .pending }

end Series

namespace Events
/-! The events transformer, `src/release/index/content/events.js`. -/

/-- Embeds `Events._defineCategories(categories)` (lines 123–129). -/
def _defineCategories (categories : JsVal) : Except JsVal JsVal :=
  match categories with
  | .arr xs => do
      let ys ← mapExcept (fun c => do
        let t ← getProp c "title"
        pure (JsVal.obj [("name", t)])) xs
      pure (.arr ys)
  | _ => .error (typeErrorCall "categories.forEach")

/-- Embeds `Events._defineTags(tags)` (lines 138–144). -/
def _defineTags (tags : JsVal) : Except JsVal JsVal :=
  match tags with
  | .arr xs => do
      let ys ← mapExcept (fun t => do
        let n ← getProp t "title"
        pure (JsVal.obj [("name", n)])) xs
      pure (.arr ys)
  | _ => .error (typeErrorCall "tags.forEach")

/-- The document literal of `Events._prepareDocument` (lines 96–107) on the
API record `event`.  Line 100 reads
`Object.keys(event.gist.primaryCategory).length !== 0 ? ….title : null`:
an empty object yields `null`, but an absent `primaryCategory` makes
`Object.keys(undefined)` throw.  Lines 103–105 read
`event.gist.eventSchedule[0].venue/eventTime/eventDate` unguarded. -/
def buildDoc (event : JsVal) : Except JsVal JsVal := do
  let gist ← getProp event "gist"
  let title ← getProp gist "title"
  let description ← getProp gist "description"
  let pc ← getProp gist "primaryCategory"
  let pcKeys ← objectKeys pc
  let primaryCategory ← if pcKeys.length ≠ 0 then getProp pc "title" else pure JsVal.null
  let cats ← getProp event "categories"
  let categoriesV ←
    if truthy cats then
      if lengthGtZero cats then _defineCategories cats else pure JsVal.null
    else pure JsVal.null
  let tags0 ← getProp event "tags"
  let tagsV ←
    if truthy tags0 then
      if lengthGtZero tags0 then _defineTags tags0 else pure JsVal.null
    else pure JsVal.null
  let sched ← getProp gist "eventSchedule"
  let first ← jsIndex sched 0
  let venue ← getProp first "venue"
  let time ← getProp first "eventTime"
  let date ← getProp first "eventDate"
  pure (JsVal.obj
    [("type", .str "event"), ("eventTitle", title),
     ("eventDescription", description), ("eventPrimaryCategory", primaryCategory),
     ("eventCategories", categoriesV), ("eventTags", tagsV),
     ("eventVenue", venue), ("eventTime", time), ("eventDate", date),
     ("data", event)])

/-- Embeds `Events._prepareDocument(site, id)` (lines 89–114) as a function of the
API call's outcome: an API rejection is forwarded, and a throw while
building the document rejects with the thrown value. -/
def _prepareDocument (api : Except JsVal JsVal) : Except JsVal JsVal := do
  let event ← api
  buildDoc event

/-- Embeds `Events.index(action, site, id)` (lines 52–78).
* `action === 'INSERT'`: prepare the document, then line 59 calls
  `self.insert(site, 'events', id, doc)`; the gateway's signature is
  `insert(index, id, doc)`, so it binds `index := site`, `id := 'events'`,
  `doc := id` (the content id becomes the stored body) and the prepared
  document — the 4th argument — is dropped.
* `action === 'REMOVE'`: line 70 calls `self.remove(site, 'events', id)`,
  binding `index := site`, `id := 'events'`; the content id is dropped.
* any other action: the executor returns silently, promise pending. -/
def index (env : EsEnv) (api : Except JsVal JsVal) (action : String) (site id : JsVal) : TRun :=
  if action = "INSERT" then
    match _prepareDocument api with
    | .error e => { calls := [], outcome := .rejected e }
    | .ok _doc =>
        let g := Index.insert env site (.str "events") id
        { calls := g.calls
          outcome :=
            match g.outcome with
            | .fulfilled _ => .fulfilled (.bool true)
            | o => o }
  else if action = "REMOVE" then
    let g := Index.remove env site (.str "events")
    { calls := g.calls
      outcome :=
        match g.outcome with
        | .fulfilled _ => .fulfilled (.bool true)
        | o => o }
  else
    { calls := [], outcome := .pending }

end Events

namespace Audio
/-! The audio transformer, `src/release/index/content/audio.js`. -/

/-- Embeds `Audio._defineCategories(categories)` (lines 122–128). -/
def _defineCategories (categories : JsVal) : Except JsVal JsVal :=
  match categories with
  | .arr xs => do
      let ys ← mapExcept (fun c => do
        let t ← getProp c "title"
        pure (JsVal.obj [("name", t)])) xs
      pure (.arr ys)
  | _ => .error (typeErrorCall "categories.forEach")

/-- Embeds `Audio._defineTags(tags)` (lines 137–143). -/
def _defineTags (tags : JsVal) : Except JsVal JsVal :=
  match tags with
  | .arr xs => do
      let ys ← mapExcept (fun t => do
        let n ← getProp t "title"
        pure (JsVal.obj [("name", n)])) xs
      pure (.arr ys)
  | _ => .error (typeErrorCall "tags.forEach")

/-- The `audioCategories` expression of line 103:
`audio.categories ? (audio.categories.length > 0 ?
self._defineCategories(audio.categories) : null) : null`. -/
def categoriesField (cats : JsVal) : Except JsVal JsVal :=
  if truthy cats then
    if lengthGtZero cats then _defineCategories cats else pure JsVal.null
  else pure JsVal.null

/-- The `audioTags` expression of line 104 (same guard for tags). -/
def tagsField (tags : JsVal) : Except JsVal JsVal :=
  if truthy tags then
    if lengthGtZero tags then _defineTags tags else pure JsVal.null
  else pure JsVal.null

/-- The body of `Audio._prepareDocument` (lines 96–106) on the API record:
`delete audio.streamingInfo` first, then the document literal.  Author and
primary category use the double guard
`x ? (Object.keys(x).length !== 0 ? … : null) : null`; categories and tags
use `x ? (x.length > 0 ? … : null) : null`. -/
def buildDoc (audio0 : JsVal) : Except JsVal JsVal := do
  let audio := deleteField audio0 "streamingInfo"
  let gist ← getProp audio "gist"
  let title ← getProp gist "title"
  let description ← getProp gist "description"
  let cd ← getProp audio "contentDetails"
  let author ← getProp cd "author"
  let authorV ←
    if truthy author then do
      let ks ← objectKeys author
      if ks.length ≠ 0 then getProp author "name" else pure JsVal.null
    else pure JsVal.null
  let pc ← getProp gist "primaryCategory"
  let pcV ←
    if truthy pc then do
      let ks ← objectKeys pc
      if ks.length ≠ 0 then getProp pc "title" else pure JsVal.null
    else pure JsVal.null
  let cats ← getProp audio "categories"
  let categoriesV ← categoriesField cats
  let tags0 ← getProp audio "tags"
  let tagsV ← tagsField tags0
  pure (JsVal.obj
    [("type", .str "audio"), ("audioTitle", title),
     ("audioDescription", description), ("audioAuthor", authorV),
     ("audioPrimaryCategory", pcV), ("audioCategories", categoriesV),
     ("audioTags", tagsV), ("data", audio)])

/-- Embeds `Audio._prepareDocument(site, id)` (lines 89–113) as a function of the
API call's outcome. -/
def _prepareDocument (api : Except JsVal JsVal) : Except JsVal JsVal := do
  let audio ← api
  buildDoc audio

/-- Embeds `Audio.index(action, site, id)` (lines 52–78): `self.insert(site, id,
doc)` and `self.remove(site, id)` — the argument lists match the gateway's
signatures, so `index := site`, `id := ` the content id. -/
def index (env : EsEnv) (api : Except JsVal JsVal) (action : String) (site id : JsVal) : TRun :=
  if action = "INSERT" then
    match _prepareDocument api with
    | .error e => { calls := [], outcome := .rejected e }
    | .ok doc =>
        let g := Index.insert env site id doc
        { calls := g.calls
          outcome :=
            match g.outcome with
            | .fulfilled _ => .fulfilled (.bool true)
            | o => o }
  else if action = "REMOVE" then
    let g := Index.remove env site id
    { calls := g.calls
      outcome :=
        match g.outcome with
        | .fulfilled _ => .fulfilled (.bool true)
        | o => o }
  else
    { calls := [], outcome := .pending }

end Audio

namespace Articles
/-! The articles transformer, `src/release/index/content/articles.js`. -/

/-- Embeds `Articles._defineCategories(categories)` (lines 121–127). -/
def _defineCategories (categories : JsVal) : Except JsVal JsVal :=
  match categories with
  | .arr xs => do
      let ys ← mapExcept (fun c => do
        let t ← getProp c "title"
        pure (JsVal.obj [("name", t)])) xs
      pure (.arr ys)
  | _ => .error (typeErrorCall "categories.forEach")

/-- Embeds `Articles._defineTags(tags)` (lines 136–142). -/
def _defineTags (tags : JsVal) : Except JsVal JsVal :=
  match tags with
  | .arr xs => do
      let ys ← mapExcept (fun t => do
        let n ← getProp t "title"
        pure (JsVal.obj [("name", n)])) xs
      pure (.arr ys)
  | _ => .error (typeErrorCall "tags.forEach")

/-- The document literal of `Articles._prepareDocument` (lines 96–105):
`articleAuthor` reads `article.contentDetails.author.name` with no guard
(line 100); primary category, categories and tags are guarded as in audio. -/
def buildDoc (article : JsVal) : Except JsVal JsVal := do
  let gist ← getProp article "gist"
  let title ← getProp gist "title"
  let description ← getProp gist "description"
  let cd ← getProp article "contentDetails"
  let author ← getProp cd "author"
  let authorName ← getProp author "name"
  let pc ← getProp gist "primaryCategory"
  let pcV ←
    if truthy pc then do
      let ks ← objectKeys pc
      if ks.length ≠ 0 then getProp pc "title" else pure JsVal.null
    else pure JsVal.null
  let cats ← getProp article "categories"
  let categoriesV ←
    if truthy cats then
      if lengthGtZero cats then _defineCategories cats else pure JsVal.null
    else pure JsVal.null
  let tags0 ← getProp article "tags"
  let tagsV ←
    if truthy tags0 then
      if lengthGtZero tags0 then _defineTags tags0 else pure JsVal.null
    else pure JsVal.null
  pure (JsVal.obj
    [("type", .str "article"), ("articleTitle", title),
     ("articleDescription", description), ("articleAuthor", authorName),
     ("articlePrimaryCategory", pcV), ("articleCategories", categoriesV),
     ("articleTags", tagsV), ("data", article)])

/-- Embeds `Articles._prepareDocument(site, id)` (lines 89–112) as a function of
the API call's outcome. -/
def _prepareDocument (api : Except JsVal JsVal) : Except JsVal JsVal := do
  let article ← api
  buildDoc article

/-- Embeds `Articles.index(action, site, id)` (lines 52–78): `self.insert(site,
id, doc)` and `self.remove(site, id)` — the argument lists match the
gateway's signatures. -/
def index (env : EsEnv) (api : Except JsVal JsVal) (action : String) (site id : JsVal) : TRun :=
  if action = "INSERT" then
    match _prepareDocument api with
    | .error e => { calls := [], outcome := .rejected e }
    | .ok doc =>
        let g := Index.insert env site id doc
        { calls := g.calls
          outcome :=
            match g.outcome with
            | .fulfilled _ => .fulfilled (.bool true)
            | o => o }
  else if action = "REMOVE" then
    let g := Index.remove env site id
    { calls := g.calls
      outcome :=
        match g.outcome with
        | .fulfilled _ => .fulfilled (.bool true)
        | o => o }
  else
    { calls := [], outcome := .pending }

end Articles

namespace Photos
/-! The photos transformer, `content/photos.js` (the second document of
src/unnamed/part_005, `class Photos`). -/

/-- Embeds `Photos._defineCategories(categories)` (lines 187–192). -/
def _defineCategories (categories : JsVal) : Except JsVal JsVal :=
  match categories with
  | .arr xs => do
      let ys ← mapExcept (fun c => do
        let t ← getProp c "title"
        pure (JsVal.obj [("name", t)])) xs
      pure (.arr ys)
  | _ => .error (typeErrorCall "categories.forEach")

/-- Embeds `Photos._defineTags(tags)` (lines 202–207). -/
def _defineTags (tags : JsVal) : Except JsVal JsVal :=
  match tags with
  | .arr xs => do
      let ys ← mapExcept (fun t => do
        let n ← getProp t "title"
        pure (JsVal.obj [("name", n)])) xs
      pure (.arr ys)
  | _ => .error (typeErrorCall "tags.forEach")

/-- The document literal of `Photos._prepareDocument` (lines 161–171):
author and primary category use the same double guard as audio/articles
(`x ? (Object.keys(x).length !== 0 ? … : null) : null`, line 166 for
`photoPrimaryCategory`), categories and tags the same length guard, and
`publishedDate` reads `photo.gist.publishedDate` directly. -/
def buildDoc (photo : JsVal) : Except JsVal JsVal := do
  let gist ← getProp photo "gist"
  let title ← getProp gist "title"
  let description ← getProp gist "description"
  let cd ← getProp photo "contentDetails"
  let author ← getProp cd "author"
  let authorV ←
    if truthy author then do
      let ks ← objectKeys author
      if ks.length ≠ 0 then getProp author "name" else pure JsVal.null
    else pure JsVal.null
  let pc ← getProp gist "primaryCategory"
  let pcV ←
    if truthy pc then do
      let ks ← objectKeys pc
      if ks.length ≠ 0 then getProp pc "title" else pure JsVal.null
    else pure JsVal.null
  let cats ← getProp photo "categories"
  let categoriesV ←
    if truthy cats then
      if lengthGtZero cats then _defineCategories cats else pure JsVal.null
    else pure JsVal.null
  let tags0 ← getProp photo "tags"
  let tagsV ←
    if truthy tags0 then
      if lengthGtZero tags0 then _defineTags tags0 else pure JsVal.null
    else pure JsVal.null
  let publishedDate ← getProp gist "publishedDate"
  pure (JsVal.obj
    [("type", .str "photo"), ("photoTitle", title),
     ("photoDescription", description), ("photoAuthor", authorV),
     ("photoPrimaryCategory", pcV), ("photoCategories", categoriesV),
     ("photoTags", tagsV), ("publishedDate", publishedDate),
     ("data", photo)])

/-- Embeds `Photos._prepareDocument(site, id)` (lines 154–178) as a
function of the API call's outcome. -/
def _prepareDocument (api : Except JsVal JsVal) : Except JsVal JsVal := do
  let photo ← api
  buildDoc photo

/-- Embeds `Photos.index(action, site, id)` (lines 117–143):
`self.insert(site, id, doc)` and `self.remove(site, id)` — the argument
lists match the gateway's signatures. -/
def index (env : EsEnv) (api : Except JsVal JsVal) (action : String) (site id : JsVal) : TRun :=
  if action = "INSERT" then
    match _prepareDocument api with
    | .error e => { calls := [], outcome := .rejected e }
    | .ok doc =>
        let g := Index.insert env site id doc
        { calls := g.calls
          outcome :=
            match g.outcome with
            | .fulfilled _ => .fulfilled (.bool true)
            | o => o }
  else if action = "REMOVE" then
    let g := Index.remove env site id
    { calls := g.calls
      outcome :=
        match g.outcome with
        | .fulfilled _ => .fulfilled (.bool true)
        | o => o }
  else
    { calls := [], outcome := .pending }

end Photos

/-! ## The Lambda handler: event router and batch completion tracker
(`src/release/index/handler.js`). -/

/-- One DynamoDB stream record as the handler reads it: the source ARN, the
event name, and the `dynamodb` payload's `Keys`, `NewImage`, `OldImage`
(the images are `undefJs` when absent). -/
structure DynamoRecord where
  eventSourceARN : String
  eventName : String
  keys : JsVal
  newImage : JsVal
  oldImage : JsVal

/-- Line 66: `record.eventSourceARN
.replace(/arn:aws:dynamodb:.*?:.*?:table\x5c//,'').replace(/\x5c/stream.*/,'')`,
embedded for ARNs of the standard
`arn:aws:dynamodb:REGION:ACCT:table/NAME/stream/...` shape: everything up to
and including the first `:table/` is stripped, then everything from the
first `/stream` on. -/
def tableFromArn (arn : String) : String :=
  let rest :=
    match afterFirst ":table/".data arn.data with
    | some r => r
    | none => arn.data
  (beforeFirst "/stream".data rest).asString

/-- One entry pushed onto the handler's `processing` array: which
transformer's `index` was invoked, with which action/site/id (and, for
series, the raw image). -/
inductive Dispatch where
  | videos (action : String) (site id : JsVal) : Dispatch
  | series (action : String) (site id image : JsVal) : Dispatch
  | articles (action : String) (site id : JsVal) : Dispatch
  | events (action : String) (site id : JsVal) : Dispatch
  | audio (action : String) (site id : JsVal) : Dispatch
  | photos (action : String) (site id : JsVal) : Dispatch
deriving Repr

/-- The per-record body of the handler's `event.Records.forEach` (lines
64–107): parse table/action/site/id/image, then dispatch by table.  A
thrown `TypeError` (e.g. reading `image.objectKey` when both images are
absent) propagates out of the `forEach` — modelled by the `Except` error.
A recognised table with an unsupported discriminator, or an unknown table,
dispatches nothing. -/
def routeRecord (r : DynamoRecord) : Except JsVal (List Dispatch) := do
  let table := tableFromArn r.eventSourceARN
  let action := if r.eventName = "INSERT" ∨ r.eventName = "MODIFY" then "INSERT" else "REMOVE"
  let siteWrapped ← getProp r.keys "site"
  let site ← getProp siteWrapped "S"
  let idWrapped ← getProp r.keys "id"
  let id ← getProp idWrapped "S"
  let image := if truthy r.newImage then r.newImage else r.oldImage
  if table = "RELEASE.CONTENT.CONTENT_METADATA" then do
    let tw ← getProp image "objectKey"
    let t ← getProp tw "S"
    if isStr t "video" then pure [.videos action site id] else pure []
  else if table = "RELEASE.CONTENT.SERIES" then do
    let ot ← getProp image "objectType"
    if truthy ot then pure [] else pure [.series action site id image]
  else if table = "RELEASE.CONTENT.ARTICLE" then
    pure [.articles action site id]
  else if table = "RELEASE.CONTENT.EVENT" then do
    let tw ← getProp image "contentType"
    let t ← getProp tw "S"
    if isStr t "EVENT" then pure [.events action site id] else pure []
  else if table = "RELEASE.CONTENT.AUDIO" then do
    let tw ← getProp image "contentType"
    let t ← getProp tw "S"
    if isStr t "AUDIO" then pure [.audio action site id] else pure []
  else if table = "RELEASE.CONTENT.PHOTOGALLERY" then do
    let tw ← getProp image "contentType"
    let t ← getProp tw "S"
    if isStr t "IMAGE" then pure [.photos action site id] else pure []
  else
    pure []

/-- The whole `event.Records.forEach` loop: records are classified in
order; the first thrown error aborts the loop (and with it the handler —
the completion callback is never invoked), so records after the throwing
one are never dispatched. -/
def handlerRoute : List DynamoRecord → Except JsVal (List Dispatch)
  | [] => .ok []
  | r :: rs => do
      let d ← routeRecord r
      let ds ← handlerRoute rs
      pure (d ++ ds)

/-- Embeds `p.catch(e => e)`: a settled promise's tracked value — the fulfilment
value or the rejection reason; `none` for a promise that never settles. -/
def settledValue : PromiseOutcome → Option JsVal
  | .fulfilled v => some v
  | .rejected v => some v
  | .pending => none

/-- Embeds `Promise.all(processing.map(p => p.catch(e => e)))` (line 111): settles
with every item's tracked value — in order, never short-circuiting on a
rejection — and only if every item settles. -/
def settleAll : List PromiseOutcome → Option (List JsVal)
  | [] => some []
  | o :: os => do
      let v ← settledValue o
      let vs ← settleAll os
      pure (v :: vs)

/-- Lines 115–125: `failed` counts the settled values that are
`instanceof Error`. -/
def failedCount (vs : List JsVal) : Nat :=
  (vs.filter (fun v => isErrorVal v)).length

/-- Lines 111–136: the completion callback as a function of the dispatched
operations' outcomes.  `none` when some operation never settles (the
callback is then never invoked); otherwise the aggregate failure/success
result with the exact strings of lines 131 and 134. -/
def handlerFinish (os : List PromiseOutcome) : Option (Except String String) :=
  (settleAll os).map (fun processed =>
    let failed := failedCount processed
    let total := processed.length
    if failed ≠ 0 then
      Except.error ("There was an error processing " ++ toString failed ++ " events!")
    else
      Except.ok ("Successfully processed all " ++ toString total ++ " events!"))

/-- The number of operations in a batch that actually rejected. -/
def countRejected (os : List PromiseOutcome) : Nat :=
  (os.filter (fun o =>
    match o with
    | .rejected _ => true
    | _ => false)).length

/-! ## Concrete fixtures for the claims -/

/-- An ElasticSearch client on which every call succeeds. -/
def okEnv : EsEnv :=
  { indicesExists := fun _ => .ok true
    indicesCreate := fun _ => .ok (.obj [("acknowledged", .bool true)])
    indexDoc := fun _ _ _ _ => .ok (.obj [("result", .str "created")])
    deleteDoc := fun _ _ _ => .ok (.obj [("result", .str "deleted")]) }

/-- The elasticsearch-js client rejects a `delete` whose target document
does not exist with a 404 "Not Found" `Error` (no `ignore: [404]` option
is set anywhere in the repository). -/
def notFoundError : JsVal := JsVal.error "NotFound" "Not Found :: 404"

/-- A client whose target document does not exist: `delete` rejects with
the 404 error, everything else succeeds. -/
def missingDocEnv : EsEnv :=
  { okEnv with deleteDoc := fun _ _ _ => .error notFoundError }

/-- Embeds `{title: s}` — a category/tag/credit as the API returns it. -/
def mkTitled (s : String) : JsVal := .obj [("title", .str s)]

/-- Embeds `{name: s}` — a flattened entry as the transformers emit it. -/
def mkName (s : String) : JsVal := .obj [("name", .str s)]

/-- A credit block: `{}` for a group without a `credits` key, otherwise
`{credits: [{title: …}, …]}`. -/
def mkBlock : Option (List String) → JsVal
  | none => .obj []
  | some ts => .obj [("credits", .arr (ts.map mkTitled))]

/-- The spec's people-flattening example input:
`[{credits: [{title:"A"}]}, {}, {credits: [{title:"B"}]}]`. -/
def peopleExample : JsVal :=
  .arr [mkBlock (some ["A"]), mkBlock none, mkBlock (some ["B"])]

/-- The skip-word list (`ES_SUGGEST_SKIP` split at commas). -/
def skipWords : List String := ["a", "the", "of", "in"]

/-- The video record of the spec's C7 scenario, with a parameter for the
`categories` field; the scenario text writes two `gist` objects, read here
as one merged gist. -/
def videoRecordWithCats (cats : JsVal) : JsVal :=
  .obj [("gist", .obj
          [("title", .str "X"), ("description", .str "d"),
           ("primaryCategory", .obj [("title", .str "Action")]),
           ("isTrailer", .bool false), ("free", .bool true), ("year", .num 2020)]),
        ("categories", cats),
        ("tags", .arr []),
        ("contentDetails", .obj [("status", .str "PUBLISHED")]),
        ("creditBlocks", .arr [])]

/-- The C7 scenario record: `categories = [{title:"C1"}]`. -/
def videoScenario : JsVal := videoRecordWithCats (.arr [mkTitled "C1"])

/-- An event API record with a parameter for `gist.primaryCategory`. -/
def eventRecordWithPC (pc : JsVal) : JsVal :=
  .obj [("gist", .obj
          [("title", .str "ET"), ("description", .str "ED"),
           ("primaryCategory", pc),
           ("eventSchedule", .arr
             [.obj [("venue", .str "V"), ("eventTime", .str "19:00"),
                    ("eventDate", .str "2020-05-01")]])]),
        ("categories", .arr []),
        ("tags", .arr [])]

/-- An audio API record with a parameter for the `categories` field. -/
def audioRecordWithCats (cats : JsVal) : JsVal :=
  .obj [("gist", .obj
          [("title", .str "AT"), ("description", .str "AD"),
           ("primaryCategory", .obj [("title", .str "AP")])]),
        ("contentDetails", .obj [("author", .obj [("name", .str "AA")])]),
        ("categories", cats),
        ("tags", .arr [])]

/-- An audio API record with a parameter for `gist.primaryCategory`. -/
def audioRecordWithPC (pc : JsVal) : JsVal :=
  .obj [("gist", .obj
          [("title", .str "AT"), ("description", .str "AD"),
           ("primaryCategory", pc)]),
        ("contentDetails", .obj [("author", .obj [("name", .str "AA")])]),
        ("categories", .arr []),
        ("tags", .arr [])]

/-- A photo API record with a parameter for `gist.primaryCategory`. -/
def photoRecordWithPC (pc : JsVal) : JsVal :=
  .obj [("gist", .obj
          [("title", .str "PT"), ("description", .str "PD"),
           ("primaryCategory", pc),
           ("publishedDate", .str "2020-06-01")]),
        ("contentDetails", .obj [("author", .obj [("name", .str "PA")])]),
        ("categories", .arr []),
        ("tags", .arr [])]

/-- A series item (already translated) with a parameter for
`gist.primaryCategory`. -/
def seriesItemWithPC (pc : JsVal) : JsVal :=
  .obj [("gist", .obj
          [("title", .str "ST"), ("description", .str "SD"),
           ("primaryCategory", pc)]),
        ("categories", .arr []),
        ("creditBlocks", .arr []),
        ("tags", .arr []),
        ("showDetails", .obj [("status", .str "PUBLISHED")])]

/-- A video record with a parameter for `gist.primaryCategory`. -/
def videoRecordWithPC (pc : JsVal) : JsVal :=
  .obj [("gist", .obj
          [("title", .str "X"), ("description", .str "d"),
           ("primaryCategory", pc),
           ("isTrailer", .bool false), ("free", .bool true), ("year", .num 2020)]),
        ("categories", .arr []),
        ("tags", .arr []),
        ("contentDetails", .obj [("status", .str "PUBLISHED")]),
        ("creditBlocks", .arr [])]

/-- The stream ARN of the content-metadata (videos) table. -/
def metadataArn : String :=
  "arn:aws:dynamodb:us-east-1:123456789012:table/RELEASE.CONTENT.CONTENT_METADATA/stream/2019-01-01T00:00:00.000"

/-- The stream ARN of the article table. -/
def articleArn : String :=
  "arn:aws:dynamodb:us-east-1:123456789012:table/RELEASE.CONTENT.ARTICLE/stream/2019-01-01T00:00:00.000"

/-- The wrapped-scalar `Keys` object `{site: {S: site}, id: {S: id}}`. -/
def mkKeys (site id : String) : JsVal :=
  .obj [("site", .obj [("S", .str site)]), ("id", .obj [("S", .str id)])]

/-- A REMOVE stream record for a video: only `OldImage` is present, with
`objectKey = 'video'`. -/
def videoRemoveRecord (site id : String) : DynamoRecord :=
  { eventSourceARN := metadataArn
    eventName := "REMOVE"
    keys := mkKeys site id
    newImage := .undefJs
    oldImage := .obj [("objectKey", .obj [("S", .str "video")])] }

/-- A malformed stream record on the content-metadata table: neither
`NewImage` nor `OldImage` is present. -/
def malformedMetaRecord (site id : String) : DynamoRecord :=
  { eventSourceARN := metadataArn
    eventName := "INSERT"
    keys := mkKeys site id
    newImage := .undefJs
    oldImage := .undefJs }

/-- A malformed stream record on the article table (both images absent). -/
def malformedArticleRecord (site id : String) : DynamoRecord :=
  { eventSourceARN := articleArn
    eventName := "INSERT"
    keys := mkKeys site id
    newImage := .undefJs
    oldImage := .undefJs }

/-- A well-formed INSERT stream record on the article table. -/
def articleInsertRecord (site id : String) : DynamoRecord :=
  { eventSourceARN := articleArn
    eventName := "INSERT"
    keys := mkKeys site id
    newImage := .obj [("title", .obj [("S", .str "an article")])]
    oldImage := .undefJs }

/-- The HTTP response object that the ViewLift API client rejects with on a
non-success status (`reject(res)`, src/unnamed/part_003 line 102): a plain
object, NOT an `Error` instance. -/
def apiHttpResponse : JsVal :=
  .obj [("statusCode", .num 500), ("body", .str "internal error")]

/-! ## Helper lemmas -/

/-- Flattening a list of `{title: s}` objects yields the `{name: s}` list. -/
theorem mapExcept_title_map (ts : List String) :
    mapExcept (fun c => do
      let t ← getProp c "title"
      pure (JsVal.obj [("name", t)])) (ts.map mkTitled) =
    Except.ok (ts.map mkName) := by
  induction ts with
  | nil => rfl
  | cons s ts ih =>
      simp only [List.map_cons, mapExcept]
      rw [ih]
      rfl

/-- One credit block contributes exactly its credits' names; a block
without a `credits` key contributes nothing. -/
theorem personsOfBlock_eval (g : Option (List String)) :
    Series.personsOfBlock (mkBlock g) = Except.ok ((g.getD []).map mkName) := by
  cases g with
  | none => rfl
  | some ts =>
      show mapExcept _ (ts.map mkTitled) = _
      exact mapExcept_title_map ts

/-- Series people flattening over an encoded block list. -/
theorem series_people_map (gs : List (Option (List String))) :
    Series._definePeople (.arr (gs.map mkBlock)) =
      Except.ok (.arr (gs.map (fun g => (g.getD []).map mkName)).flatten) := by
  have h : ∀ gs' : List (Option (List String)),
      mapExcept Series.personsOfBlock (gs'.map mkBlock) =
        Except.ok (gs'.map (fun g => (g.getD []).map mkName)) := by
    intro gs'
    induction gs' with
    | nil => rfl
    | cons g gs' ih =>
        simp only [List.map_cons, mapExcept]
        rw [personsOfBlock_eval, ih]
        rfl
  show Except.bind (mapExcept Series.personsOfBlock (gs.map mkBlock)) _ = _
  rw [h]
  rfl

/-- Embeds `Audio._defineCategories` on a mapped list of `{title: s}` objects. -/
theorem audio_defineCategories_map (ts : List String) :
    Audio._defineCategories (.arr (ts.map mkTitled)) =
      Except.ok (.arr (ts.map mkName)) := by
  show Except.bind (mapExcept (fun c => do
      let t ← getProp c "title"
      pure (JsVal.obj [("name", t)])) (ts.map mkTitled))
    (fun ys => Except.ok (JsVal.arr ys)) = Except.ok (JsVal.arr (ts.map mkName))
  rw [mapExcept_title_map]
  rfl

/-- The audio categories guard on a non-empty mapped list. -/
theorem audio_categoriesField_map (t : String) (ts : List String) :
    Audio.categoriesField (.arr ((t :: ts).map mkTitled)) =
      Except.ok (.arr ((t :: ts).map mkName)) := by
  have h := audio_defineCategories_map (t :: ts)
  simp only [List.map_cons] at h ⊢
  have hlen : lengthGtZero (JsVal.arr (mkTitled t :: List.map mkTitled ts)) = true := by
    simp [lengthGtZero]
  simp [Audio.categoriesField, hlen, truthy, h]

/-- A batch containing a never-settling promise never produces a settled
value list. -/
theorem settleAll_pending (pre post : List PromiseOutcome) :
    settleAll (pre ++ PromiseOutcome.pending :: post) = none := by
  induction pre with
  | nil => rfl
  | cons o pre ih =>
      cases o <;> simp [settleAll, settledValue, ih]

/-- If every operation settles, rejections reject with `Error` instances
and fulfilments are non-`Error` values, then `Promise.all` over the
`catch`-wrapped operations settles with one value per operation and the
`instanceof Error` count is exactly the rejection count. -/
theorem settleAll_spec (os : List PromiseOutcome)
    (hsettle : ∀ o ∈ os, o ≠ PromiseOutcome.pending)
    (hrej : ∀ v, PromiseOutcome.rejected v ∈ os → isErrorVal v = true)
    (hful : ∀ v, PromiseOutcome.fulfilled v ∈ os → isErrorVal v = false) :
    ∃ vs, settleAll os = some vs ∧ vs.length = os.length ∧
      failedCount vs = countRejected os := by
  induction os with
  | nil => exact ⟨[], rfl, rfl, rfl⟩
  | cons o os ih =>
      obtain ⟨vs, h1, h2, h3⟩ := ih
        (fun o' ho => hsettle o' (List.mem_cons_of_mem _ ho))
        (fun v hv => hrej v (List.mem_cons_of_mem _ hv))
        (fun v hv => hful v (List.mem_cons_of_mem _ hv))
      cases o with
      | pending => exact absurd rfl (hsettle _ (List.mem_cons_self _ _))
      | fulfilled v =>
          have hv : isErrorVal v = false := hful v (List.mem_cons_self _ _)
          refine ⟨v :: vs, ?_, ?_, ?_⟩
          · simp [settleAll, settledValue, h1]
          · simp [h2]
          · simp [failedCount, countRejected, hv] at h3 ⊢
            exact h3
      | rejected v =>
          have hv : isErrorVal v = true := hrej v (List.mem_cons_self _ _)
          refine ⟨v :: vs, ?_, ?_, ?_⟩
          · simp [settleAll, settledValue, h1]
          · simp [h2]
          · simp [failedCount, countRejected, hv] at h3 ⊢
            exact h3

/-- The payload of an `Except` result (to state facts about the fields of a
document already shown to build successfully). -/
def outVal : Except JsVal JsVal → JsVal
  | .ok v => v
  | .error e => e

/-! ## The claims -/

/-- C1: the claim states that every dispatched write targets index = site
and document id = contentId (and insert bodies are the prepared document).
Evaluating the code at site "acme", contentId "v1": the events and series
transformers pass `insert(site, 'events', id, doc)` / `remove(site,
'events'|'series', id)` to a gateway whose signatures are `insert(index,
id, doc)` / `remove(index, id)`, so the write's document id is the literal
type name and the event insert's stored body is the raw contentId, the
prepared document being dropped as an excess argument.  (For audio — last
conjunct — the argument lists match and the id is the contentId.) -/
theorem c1_gateway_receives_type_literal_as_id :
    (Events.index okEnv (.ok (eventRecordWithPC (.obj [("title", .str "Action")])))
        "REMOVE" (.str "acme") (.str "v1")).calls =
      [.deleteDoc (.str "acme") "content" (.str "events")] ∧
    (Series.index okEnv "REMOVE" (.str "acme") (.str "v1") (.obj [])).calls =
      [.deleteDoc (.str "acme") "content" (.str "series")] ∧
    (Events.index okEnv (.ok (eventRecordWithPC (.obj [("title", .str "Action")])))
        "INSERT" (.str "acme") (.str "v1")).calls =
      [.indicesExists (.str "acme"),
       .insertDoc (.str "acme") "content" (.str "events") (.str "v1")] ∧
    (Audio.index okEnv (.ok (audioRecordWithCats (.arr []))) "REMOVE"
        (.str "acme") (.str "v1")).calls =
      [.deleteDoc (.str "acme") "content" (.str "v1")] :=
  ⟨rfl, rfl, rfl, rfl⟩

/-- C2 counterexample: an operation that rejects with a non-`Error` value —
the ViewLift API client rejects with the HTTP response object on a
non-success status — is counted as a success: the batch has exactly one
rejected item, yet the handler reports overall success, not a failure
count of 1. -/
theorem c2_counterexample_nonerror_rejection_counted_as_success :
    countRejected [PromiseOutcome.rejected apiHttpResponse] = 1 ∧
    handlerFinish [PromiseOutcome.rejected apiHttpResponse] =
      some (Except.ok "Successfully processed all 1 events!") :=
  ⟨rfl, rfl⟩

/-- C2 amended: provided every item settles, every rejection reason is an
`Error` instance and no fulfilment value is one, the handler waits for all
items (no rejection short-circuits the aggregation) and then reports an
error naming exactly the rejection count iff any item rejected, otherwise
success naming the total processed. -/
theorem c2_amended_error_report_counts_rejections (os : List PromiseOutcome)
    (hsettle : ∀ o ∈ os, o ≠ PromiseOutcome.pending)
    (hrej : ∀ v, PromiseOutcome.rejected v ∈ os → isErrorVal v = true)
    (hful : ∀ v, PromiseOutcome.fulfilled v ∈ os → isErrorVal v = false) :
    handlerFinish os =
      some (if countRejected os ≠ 0 then
        Except.error ("There was an error processing " ++
          toString (countRejected os) ++ " events!")
      else
        Except.ok ("Successfully processed all " ++
          toString os.length ++ " events!")) := by
  obtain ⟨vs, h1, h2, h3⟩ := settleAll_spec os hsettle hrej hful
  simp [handlerFinish, h1, h2, h3]

/-- C2 witness: a batch of one fulfilled and one `Error`-rejected item is
reported as a failure of exactly 1 event. -/
theorem c2_amended_error_report_counts_rejections_witness :
    handlerFinish [PromiseOutcome.fulfilled (JsVal.bool true),
                   PromiseOutcome.rejected (JsVal.error "Error" "boom")] =
      some (Except.error "There was an error processing 1 events!") := by
  have h := c2_amended_error_report_counts_rejections
    [PromiseOutcome.fulfilled (JsVal.bool true),
     PromiseOutcome.rejected (JsVal.error "Error" "boom")]
    (by intro o ho; simp only [List.mem_cons, List.not_mem_nil, or_false] at ho
        rcases ho with rfl | rfl <;> simp)
    (by intro v hv; simp only [List.mem_cons, List.not_mem_nil, or_false] at hv
        rcases hv with hv | hv
        · exact absurd hv (by simp)
        · rw [PromiseOutcome.rejected.injEq] at hv; subst hv; rfl)
    (by intro v hv; simp only [List.mem_cons, List.not_mem_nil, or_false] at hv
        rcases hv with hv | hv
        · rw [PromiseOutcome.fulfilled.injEq] at hv; subst hv; rfl
        · exact absurd hv (by simp))
  exact h.trans rfl

/-- C3 counterexample: with a search client whose target document does not
exist — the client rejects the delete with its 404 "Not Found" error — the
REMOVE pipeline rejects rather than succeeding: nothing swallows the
not-found response. -/
theorem c3_counterexample_remove_missing_doc_rejects :
    (Audio.index missingDocEnv (.ok (.obj [])) "REMOVE"
        (.str "acme") (.str "v1")).outcome = .rejected notFoundError ∧
    (Audio.index missingDocEnv (.ok (.obj [])) "REMOVE"
        (.str "acme") (.str "v1")).calls =
      [.deleteDoc (.str "acme") "content" (.str "v1")] :=
  ⟨rfl, rfl⟩

/-- C3 amended: the gateway's `remove` forwards the search client's delete
outcome unchanged — it issues exactly one delete and fulfils (with `true`
at the transformer) iff the client fulfils, rejecting with the client's
error otherwise; no "not found" special-casing exists, so a delete the
engine reports as not-found-rejection is an item failure. -/
theorem c3_amended_remove_forwards_client_outcome
    (env : EsEnv) (api : Except JsVal JsVal) (site id : JsVal) :
    (Audio.index env api "REMOVE" site id).calls =
      [.deleteDoc site "content" id] ∧
    (Audio.index env api "REMOVE" site id).outcome =
      (match env.deleteDoc site "content" id with
       | .ok _ => PromiseOutcome.fulfilled (.bool true)
       | .error e => PromiseOutcome.rejected e) := by
  refine ⟨rfl, ?_⟩
  cases h : env.deleteDoc site "content" id <;>
    simp [Audio.index, Index.remove, h]

/-- C4 counterexample: a batch whose first record (on the content-metadata
table) has neither image makes the router throw a synchronous `TypeError`
while reading `image.objectKey`; the well-formed article record after it is
never dispatched, no `MalformedEventError` exists, and the aborted handler
never reaches the completion callback that would count a batch failure. -/
theorem c4_counterexample_malformed_event_aborts_batch :
    handlerRoute [malformedMetaRecord "acme" "v1", articleInsertRecord "acme" "a1"] =
      .error (typeErrorProp "objectKey") := rfl

/-- C4 amended: an event with both images absent causes a synchronous
`TypeError` in every table branch that dereferences the image (here:
content-metadata), aborting the whole `forEach` — sibling events after it
are never dispatched and no callback is invoked, so it is not counted as
one batch failure; on the article table, whose branch never reads the
image, the malformed event is dispatched as if well-formed. -/
theorem c4_amended_malformed_event_throws_typeerror
    (site id : String) (rest : List DynamoRecord) :
    handlerRoute (malformedMetaRecord site id :: rest) =
      .error (typeErrorProp "objectKey") ∧
    routeRecord (malformedArticleRecord site id) =
      .ok [.articles "INSERT" (.str site) (.str id)] :=
  ⟨rfl, rfl⟩

/-- C5: the router dispatches a video REMOVE with the action string
"REMOVE"; `Videos.index` matches neither its `'INSERT'` branch nor its
lowercase `'remove'` branch, so it issues no ES call and its promise never
settles — and a batch aggregation containing that promise never completes
(the completion callback is never invoked). -/
theorem c5_videos_remove_never_settles (env : EsEnv) (site id : String)
    (pre post : List PromiseOutcome) :
    routeRecord (videoRemoveRecord site id) =
      .ok [.videos "REMOVE" (.str site) (.str id)] ∧
    (Videos.index env "REMOVE" (.str site) (.str id)).calls = [] ∧
    (Videos.index env "REMOVE" (.str site) (.str id)).outcome = .pending ∧
    handlerFinish (pre ++ PromiseOutcome.pending :: post) = none := by
  refine ⟨rfl, rfl, rfl, ?_⟩
  simp [handlerFinish, settleAll_pending]

/-- C6: `Series.index` on INSERT evaluates the bare identifier
`_prepareDocument`, which is not among the bindings in scope, so the
executor throws a `ReferenceError` and the promise rejects before any ES
call — no series document is ever inserted from a change-event image. -/
theorem c6_series_insert_rejects_before_write :
    "_prepareDocument" ∉ Series.indexScopeNames ∧
    ∀ (env : EsEnv) (site id image : JsVal),
      (Series.index env "INSERT" site id image).calls = [] ∧
      (Series.index env "INSERT" site id image).outcome =
        .rejected (referenceError "_prepareDocument") :=
  ⟨by decide, fun _ _ _ _ => ⟨rfl, rfl⟩⟩

/-- C7 counterexample: on the spec's C7 scenario record the produced video
document has NO `videoTitle`/`videoCategories`/`videoTags` fields (the
videos transformer writes unprefixed field names), and its `tags` field is
the empty list, not `null`. -/
theorem c7_counterexample_no_prefixed_fields :
    getField (outVal (Videos.buildDoc skipWords videoScenario)) "videoTitle" =
      JsVal.undefJs ∧
    getField (outVal (Videos.buildDoc skipWords videoScenario)) "videoCategories" =
      JsVal.undefJs ∧
    getField (outVal (Videos.buildDoc skipWords videoScenario)) "videoTags" =
      JsVal.undefJs ∧
    getField (outVal (Videos.buildDoc skipWords videoScenario)) "title" =
      JsVal.str "X" :=
  ⟨rfl, rfl, rfl, rfl⟩

/-- C7 amended: on the scenario record (its two written `gist` objects read
as one merged gist) the produced document is exactly: unprefixed `title
"X"`, `suggestTitle ["X"]`, `type "video"`, `description "d"`,
`primaryCategory "Action"`, `categories [{name:"C1"}]`, `tags []` (the
empty list, not null), `status "PUBLISHED"`, `people []`, `isTrailer
false`, `free true`, `year 2020`, `parentalRating undefined`, plus the full
record under `data`. -/
theorem c7_amended_video_document_shape :
    Videos.buildDoc skipWords videoScenario =
      .ok (.obj
        [("title", .str "X"), ("suggestTitle", .arr [.str "X"]),
         ("type", .str "video"), ("description", .str "d"),
         ("primaryCategory", .str "Action"),
         ("categories", .arr [.obj [("name", .str "C1")]]),
         ("tags", .arr []), ("status", .str "PUBLISHED"),
         ("people", .arr []), ("isTrailer", .bool false),
         ("free", .bool true), ("year", .num 2020),
         ("parentalRating", JsVal.undefJs), ("data", videoScenario)]) := rfl

/-- C8 counterexample: the videos build maps an empty `categories` list to
the empty list (not `null`), and an absent `categories` field makes the
build throw a `TypeError` instead of producing `null`. -/
theorem c8_counterexample_empty_categories_not_null :
    getField (outVal (Videos.buildDoc skipWords (videoRecordWithCats (.arr []))))
      "categories" = JsVal.arr [] ∧
    getField (outVal (Videos.buildDoc skipWords (videoRecordWithCats (.arr []))))
      "categories" ≠ JsVal.null ∧
    Videos.buildDoc skipWords (videoRecordWithCats JsVal.undefJs) =
      .error (typeErrorCall "categories.forEach") :=
  ⟨rfl, fun h => JsVal.noConfusion h, rfl⟩

/-- C8 amended: the guarded builds (audio; events and articles use the
identical guard) yield `null` for absent or empty categories and the
`[{name}]` list, in order, for non-empty input; the videos build is
unguarded — empty input yields `[]`, not `null`, and absent input throws a
`TypeError` (the series build shares the unguarded shape). -/
theorem c8_amended_categories_guarded_vs_unguarded (t : String) (ts : List String) :
    getField (outVal (Audio.buildDoc (audioRecordWithCats JsVal.undefJs)))
      "audioCategories" = JsVal.null ∧
    getField (outVal (Audio.buildDoc (audioRecordWithCats (.arr []))))
      "audioCategories" = JsVal.null ∧
    Audio.categoriesField (.arr ((t :: ts).map mkTitled)) =
      .ok (.arr ((t :: ts).map mkName)) ∧
    getField (outVal (Videos.buildDoc skipWords (videoRecordWithCats (.arr []))))
      "categories" = JsVal.arr [] ∧
    Videos.buildDoc skipWords (videoRecordWithCats JsVal.undefJs) =
      .error (typeErrorCall "categories.forEach") :=
  ⟨rfl, rfl, audio_categoriesField_map t ts, rfl, rfl⟩

/-- C9 counterexample: on the spec's example input
`[{credits:[{title:"A"}]}, {}, {credits:[{title:"B"}]}]` the videos
transformer's people flattening throws a `TypeError` at the middle group
(no `credits` guard) instead of yielding `[{name:"A"},{name:"B"}]`. -/
theorem c9_counterexample_videos_people_throws :
    Videos._definePeople peopleExample =
      .error (typeErrorCall "block.credits.forEach") := rfl

/-- C9 amended: the series transformer's people flattening concatenates all
groups' credits in original order and a group without a `credits` key
contributes nothing (in particular the example input yields
`[{name:"A"},{name:"B"}]`); the videos transformer's flattening instead
throws a `TypeError` on any group without a `credits` key. -/
theorem c9_amended_people_flattening (gs : List (Option (List String))) :
    Series._definePeople (.arr (gs.map mkBlock)) =
      .ok (.arr (gs.map (fun g => (g.getD []).map mkName)).flatten) ∧
    Series._definePeople peopleExample =
      .ok (.arr [mkName "A", mkName "B"]) ∧
    Videos._definePeople peopleExample =
      .error (typeErrorCall "block.credits.forEach") :=
  ⟨series_people_map gs, rfl, rfl⟩

/-- C10 counterexample: the events build on a record with an absent
`primaryCategory` throws a `TypeError` (`Object.keys(undefined)`) instead
of producing `null`. -/
theorem c10_counterexample_absent_primary_category_throws :
    Events.buildDoc (eventRecordWithPC JsVal.undefJs) =
      .error (typeErrorProp "keys argument") := rfl

/-- C10 amended: the audio, articles and photos builds (the same double
guard `x ? (Object.keys(x).length !== 0 ? x.title : null) : null`) yield
`null` for both an absent and an empty-object `primaryCategory` and the
title otherwise, as the claim states; events yields `null` for the empty
object and the title when populated but throws on an absent field; videos
yields `null` when absent and the title when populated but `undefined`
(not `null`) on the empty object; series throws when absent and yields
`undefined` on the empty object. -/
theorem c10_amended_primary_category_per_type (t : String) :
    getField (outVal (Audio.buildDoc (audioRecordWithPC JsVal.undefJs)))
      "audioPrimaryCategory" = JsVal.null ∧
    getField (outVal (Audio.buildDoc (audioRecordWithPC (.obj []))))
      "audioPrimaryCategory" = JsVal.null ∧
    getField (outVal (Audio.buildDoc (audioRecordWithPC (mkTitled t))))
      "audioPrimaryCategory" = JsVal.str t ∧
    getField (outVal (Photos.buildDoc (photoRecordWithPC JsVal.undefJs)))
      "photoPrimaryCategory" = JsVal.null ∧
    getField (outVal (Photos.buildDoc (photoRecordWithPC (.obj []))))
      "photoPrimaryCategory" = JsVal.null ∧
    getField (outVal (Photos.buildDoc (photoRecordWithPC (mkTitled t))))
      "photoPrimaryCategory" = JsVal.str t ∧
    getField (outVal (Events.buildDoc (eventRecordWithPC (.obj []))))
      "eventPrimaryCategory" = JsVal.null ∧
    getField (outVal (Events.buildDoc (eventRecordWithPC (mkTitled t))))
      "eventPrimaryCategory" = JsVal.str t ∧
    Events.buildDoc (eventRecordWithPC JsVal.undefJs) =
      .error (typeErrorProp "keys argument") ∧
    getField (outVal (Videos.buildDoc skipWords (videoRecordWithPC JsVal.undefJs)))
      "primaryCategory" = JsVal.null ∧
    getField (outVal (Videos.buildDoc skipWords (videoRecordWithPC (.obj []))))
      "primaryCategory" = JsVal.undefJs ∧
    getField (outVal (Videos.buildDoc skipWords (videoRecordWithPC (mkTitled t))))
      "primaryCategory" = JsVal.str t ∧
    Series.buildDoc (seriesItemWithPC JsVal.undefJs) =
      .error (typeErrorProp "title") ∧
    getField (outVal (Series.buildDoc (seriesItemWithPC (.obj []))))
      "seriesPrimaryCategory" = JsVal.undefJs ∧
    getField (outVal (Series.buildDoc (seriesItemWithPC (mkTitled t))))
      "seriesPrimaryCategory" = JsVal.str t :=
  ⟨rfl, rfl, rfl, rfl, rfl, rfl, rfl, rfl, rfl, rfl, rfl, rfl, rfl, rfl, rfl⟩
